import Mathlib

/-!
Shallow embedding of the subscription-lifecycle core of the
telegram-subscription-bot repository (src/db.py, src/bot.py,
src/telegram_payments.py, src/yookassa_subscriptions.py,
src/prodamus_api.py, src/webhook_handler.py, src/yookassa_webhook.py),
together with theorems settling the frozen claims about it.

Modelling conventions:
* Timestamps are a calendar-day ordinal (Python `date.toordinal`) plus
  seconds within the day; `datetime + timedelta(days=n)` is ordinal
  addition and datetime comparison is lexicographic on (day, sec),
  which agrees with SQLite's textual comparison of ISO datetimes.
* The `users` table is an association list keyed by user id (the
  PRIMARY KEY).  SQL UPDATE maps over matching rows, INSERT appends.
* The `payment_history` column is TEXT holding JSON; it is embedded as
  `HistCol`: NULL, the empty string, a non-empty string that fails JSON
  decoding, or a decoded list of entries.  The heterogeneous dicts the
  code appends become the `HistEntry` constructors.
* The `user_data` column holds a JSON object read back with
  `dict.get(key, default)` everywhere, so it is embedded as a structure
  whose field defaults are exactly those `.get` defaults.
-/

namespace SubBot

/-- A point in time: Python `datetime` as (calendar-day ordinal, seconds
within the day). -/
structure Timestamp where
  day : Int
  sec : Nat
deriving Repr, DecidableEq

/-- `datetime + timedelta(days = n)`. -/
def addDays (t : Timestamp) (n : Int) : Timestamp :=
  { t with day := t.day + n }

/-- `datetime <` comparison (lexicographic on day, then seconds), matching
SQLite's textual comparison of ISO-formatted datetimes. -/
def tsLt (a b : Timestamp) : Bool :=
  a.day < b.day || (a.day == b.day && a.sec < b.sec)

/-- The completed-payment dict built by
`TelegramPaymentsManager._update_user_subscription` (telegram_payments.py
lines 429-437) and `YooKassaSubscriptionManager._activate_subscription`. -/
structure PaymentInfo where
  amount : Int
  currency : String
  provider_payment_charge_id : Option String
  telegram_payment_charge_id : Option String
  tariff : String
  payment_date : Timestamp
  status : String
deriving Repr, DecidableEq

/-- One element of the `payment_history` JSON array.  The four
constructors are the four dict shapes the source appends: a completed
payment, a renewal record (yookassa_subscriptions.py line 507), a
cancellation record (line 606), and a deactivation record
(telegram_payments.py line 585). -/
inductive HistEntry where
  | payment (p : PaymentInfo)
  | renewal (payment_id : String) (renewal_date : Timestamp)
  | cancellation (reason : String) (cancelled_at : Timestamp)
  | deactivation (reason : String) (deactivated_at : Timestamp)
deriving Repr, DecidableEq

/-- The raw `payment_history` TEXT column: SQL NULL, the empty string, a
non-empty string on which `json.loads` raises, or a string decoding to a
list of entries. -/
inductive HistCol where
  | null
  | emptyStr
  | corrupt
  | valid (l : List HistEntry)
deriving Repr, DecidableEq

/-- The Python value sitting under key `payment_history` in the dict that
`get_user` returns: `None`, the (undecoded, falsy) empty string, or a
list. -/
inductive HistVal where
  | none
  | emptyStr
  | list (l : List HistEntry)
deriving Repr, DecidableEq

/-- The JSON object the YooKassa/Telegram-payments modules decode from
`user.get('user_data', '{}')` and read via `dict.get` with these
defaults.  No schema in the repository (neither `db.setup_database` nor
`migrate_to_yookassa.py`) defines a `user_data` column, so this object
exists only transiently in Python memory and is never persisted. -/
structure UserData where
  current_tariff : Option String := Option.none
  payment_method_id : Option String := Option.none
  next_billing_date : Option Timestamp := Option.none
  billing_attempts : Nat := 0
  auto_renewal : Bool := false
  last_payment_id : Option String := Option.none
deriving Repr, DecidableEq

/-- One row of the `users` table, exactly the columns `setup_database`
(db.py lines 55-66) creates (bookkeeping timestamps aside).  There is no
`user_data` and no `subscription_id` column: reads of those keys on the
fetched dict always produce the `.get` default, and SQL writes naming
them raise `sqlite3.OperationalError`. -/
structure UserRecord where
  subscription_active : Bool := false
  subscription_end_date : Option Timestamp := Option.none
  auto_renewal : Bool := false
  left_group : Bool := false
  payment_history : HistCol := HistCol.null
deriving Repr, DecidableEq

/-- The `users` table: association list keyed by user id. -/
abbrev Store := List (Int × UserRecord)

/-- `SELECT * FROM users WHERE user_id = ?` (first matching row). -/
def lookupRec : Store → Int → Option UserRecord
  | [], _ => Option.none
  | p :: rest, uid => if p.1 = uid then some p.2 else lookupRec rest uid

/-- SQL `UPDATE users SET ... WHERE user_id = ?`: rewrite every row with
the given key. -/
def storeUpdate (s : Store) (uid : Int) (f : UserRecord → UserRecord) : Store :=
  s.map (fun p => if p.1 = uid then (p.1, f p.2) else p)

/-- SQL `INSERT INTO users ...`: append a fresh row. -/
def storeInsert (s : Store) (uid : Int) (r : UserRecord) : Store :=
  s ++ [(uid, r)]

/-- The dict `get_user` (db.py lines 72-92) builds from a row: booleans
coerced, and `payment_history` decoded only when the column value is
truthy, with decoding failures replaced by the empty list. -/
structure UserView where
  subscription_active : Bool
  subscription_end_date : Option Timestamp
  auto_renewal : Bool
  left_group : Bool
  payment_history : HistVal
deriving Repr, DecidableEq

/-- `get_user`'s handling of the `payment_history` column:
`if user.get('payment_history'):` skips NULL and the (falsy) empty
string; a non-empty string is `json.loads`-decoded, and on
`JSONDecodeError` the value becomes `[]`. -/
def histView : HistCol → HistVal
  | HistCol.null => HistVal.none
  | HistCol.emptyStr => HistVal.emptyStr
  | HistCol.corrupt => HistVal.list []
  | HistCol.valid l => HistVal.list l

def viewOf (r : UserRecord) : UserView :=
  { subscription_active := r.subscription_active
    subscription_end_date := r.subscription_end_date
    auto_renewal := r.auto_renewal
    left_group := r.left_group
    payment_history := histView r.payment_history }

/-- `db.get_user` (db.py lines 72-92). -/
def get_user (s : Store) (uid : Int) : Option UserView :=
  (lookupRec s uid).map viewOf

/-- `json.loads(user.get('user_data', '{}'))`: `SELECT *` returns only
the real columns, the fetched dict never has a `user_data` key, so the
default `'{}'` is parsed and every field reads as its `.get` default. -/
def userDataOf (_v : UserView) : UserData :=
  {}

/-- `user.get('subscription_id')` (bot.py line 315): no schema defines a
`subscription_id` column, so the read always yields `None`. -/
def subscriptionIdOf (_v : UserView) : Option String :=
  Option.none

/-- A database error surfaced to Python as `sqlite3.OperationalError`. -/
inductive DbError where
  | noSuchColumn (column : String)
deriving Repr, DecidableEq

/-- `db.add_or_update_user` (db.py lines 94-118) as invoked with a
`{'user_data': json.dumps(...)}` payload by telegram_payments.py and
yookassa_subscriptions.py.  The generated SQL names a `user_data`
column that no schema in the repository defines (`setup_database`
creates eight columns, `migrate_to_yookassa.py` adds others but not
this one), so `cur.execute` raises
`sqlite3.OperationalError: table users has no column named user_data`
before any change, and `add_or_update_user` logs and re-raises.  The
store is untouched. -/
def add_or_update_user_data (_s : Store) (_uid : Int) (_ud : UserData) :
    Except DbError Store :=
  Except.error (DbError.noSuchColumn "user_data")

/-- `update_user_subscription`'s coercion of the fetched history:
`current_history = user.get('payment_history', [])` followed by
`if not isinstance(current_history, list): current_history = []`. -/
def histToList : HistVal → List HistEntry
  | HistVal.list l => l
  | _ => []

/-- `db.update_user_subscription` (db.py lines 120-163): re-read the
user, set the three subscription fields, append `payment_info` (when
given) to the decoded history and persist it re-serialized; when the
user is absent, insert a fresh row carrying just these fields. -/
def update_user_subscription (s : Store) (uid : Int) (is_active : Bool)
    (end_date : Option Timestamp) (auto_renewal : Bool)
    (payment_info : Option HistEntry) : Store :=
  match get_user s uid with
  | Option.none =>
      storeInsert s uid
        { subscription_active := is_active
          subscription_end_date := end_date
          auto_renewal := auto_renewal
          payment_history := HistCol.valid payment_info.toList }
  | some v =>
      let newHist := histToList v.payment_history ++ payment_info.toList
      storeUpdate s uid (fun r =>
        { r with
          subscription_active := is_active
          subscription_end_date := end_date
          auto_renewal := auto_renewal
          payment_history := HistCol.valid newHist })

/-- `db.get_users_for_reminder` (db.py lines 178-208): with an empty
offset list return `[]`; otherwise select
`user_id, subscription_end_date, left_group` from rows with
`subscription_active = TRUE`, a non-NULL end date, and
`DATE(subscription_end_date) = today + days` for some offset.  `DATE`
keeps only the calendar day of the stored datetime. -/
def get_users_for_reminder (s : Store) (today : Int) (days_before_expiry : List Int) :
    List (Int × Option Timestamp × Bool) :=
  if days_before_expiry.isEmpty then []
  else
    (s.filter (fun p =>
      p.2.subscription_active &&
      (match p.2.subscription_end_date with
       | some e => days_before_expiry.any (fun d => e.day == today + d)
       | Option.none => false))).map
      (fun p => (p.1, p.2.subscription_end_date, p.2.left_group))

/-- The row set selected by the SQL in `db.get_expired_users_to_kick`
(db.py lines 216-223): `SELECT user_id FROM users WHERE
subscription_active = FALSE AND left_group = FALSE AND
subscription_end_date IS NOT NULL AND subscription_end_date < ?` with
`? = now - timedelta(days=days_threshold)`.  Each fetched row is the
1-tuple `(user_id,)`. -/
def kickSelectedRows (s : Store) (now : Timestamp) (days_threshold : Int) :
    List (List Int) :=
  let threshold := { day := now.day - days_threshold, sec := now.sec : Timestamp }
  (s.filter (fun p =>
    !p.2.subscription_active && !p.2.left_group &&
    (match p.2.subscription_end_date with
     | some e => tsLt e threshold
     | Option.none => false))).map (fun p => [p.1])

/-- Indexing a plain tuple row with a string key.  The aiosqlite
connection opened in `init_db_pool` sets no `row_factory`, so
`fetchall` yields plain tuples (which is why `get_user` rebuilds a dict
with `dict(zip(columns, row))`); `row['user_id']` on a tuple raises
`TypeError: tuple indices must be integers`.  Embedded as a lookup that
always fails. -/
def rowGetStr (_row : List Int) (_key : String) : Option Int :=
  Option.none

/-- `db.get_expired_users_to_kick` (db.py lines 210-232):
`return [user['user_id'] for user in users] if users else []`, with the
whole block wrapped in `try/except` returning `[]` on any exception. -/
def get_expired_users_to_kick (s : Store) (now : Timestamp) (days_threshold : Int) :
    List Int :=
  let rows := kickSelectedRows s now days_threshold
  if rows.isEmpty then []
  else
    match rows.mapM (fun row => rowGetStr row "user_id") with
    | some ids => ids
    | Option.none => []

/-! ## Telegram-payments activation (telegram_payments.py) -/

/-- The `payment_data` dict handed to
`TelegramPaymentsManager._update_user_subscription` (successful-payment
fields extracted from the Telegram/YooKassa event). -/
structure PaymentDataIn where
  total_amount : Int
  currency : String
  provider_payment_charge_id : Option String
  telegram_payment_charge_id : Option String
deriving Repr, DecidableEq

/-- The completed-payment history entry `_update_user_subscription`
builds (telegram_payments.py lines 429-437). -/
def mkPaymentInfo (now : Timestamp) (tariff : String) (pd : PaymentDataIn) : PaymentInfo :=
  { amount := pd.total_amount
    currency := pd.currency
    provider_payment_charge_id := pd.provider_payment_charge_id
    telegram_payment_charge_id := pd.telegram_payment_charge_id
    tariff := tariff
    payment_date := now
    status := "completed" }

/-- `TelegramPaymentsManager._update_user_subscription`
(telegram_payments.py lines 416-458): first `db.update_user_subscription`
commits the real columns — active for 30 days,
`auto_renewal = bool(payment_method_id)`, the completed `payment_info`
appended — then the attempt to save `{'user_data': ...}` (line 452)
raises on the missing column and the function's `except` re-raises.
The returned flag records whether the function raised (it always does);
the committed first write survives. -/
def telegram_update_user_subscription (now : Timestamp) (s : Store) (uid : Int)
    (tariff : String) (pd : PaymentDataIn) (payment_method_id : Option String) :
    Store × Bool :=
  let expires_at := addDays now 30
  let info := mkPaymentInfo now tariff pd
  let s1 := update_user_subscription s uid true (some expires_at)
      payment_method_id.isSome (some (HistEntry.payment info))
  let ud : UserData :=
    { current_tariff := some tariff
      payment_method_id := payment_method_id
      next_billing_date := if payment_method_id.isSome then some expires_at else Option.none
      billing_attempts := 0 }
  match add_or_update_user_data s1 uid ud with
  | Except.ok s2 => (s2, false)
  | Except.error _ => (s1, true)

/-- One `PaymentConfirmed` delivery as it reaches
`_update_user_subscription`: the processing time, the tariff parsed from
the invoice payload, the payment fields, and the payment-method id the
manager fetched from the provider API. -/
structure ConfirmedDelivery where
  now : Timestamp
  tariff : String
  data : PaymentDataIn
  payment_method_id : Option String
deriving Repr, DecidableEq

/-- A sequence of `PaymentConfirmed` events for one user, each processed
by `_update_user_subscription`.  The exception each call raises after
committing is caught by `process_successful_payment`, so later webhooks
keep arriving and each fold step keeps the committed store. -/
def deliverAll (s : Store) (uid : Int) (ds : List ConfirmedDelivery) : Store :=
  ds.foldl (fun acc d =>
    (telegram_update_user_subscription d.now acc uid d.tariff d.data
      d.payment_method_id).1) s

/-! ## Bot command handlers (bot.py) -/

/-- `process_subscription` (bot.py lines 233-281) in demo mode: when the
payment link was created successfully and `PAYMENT_PROVIDER` is `demo`,
immediately activate the subscription for 30 days with
`auto_renewal=True` (no payment-method reference is captured
anywhere). -/
def process_subscription_demo (now : Timestamp) (s : Store) (uid : Int)
    (link_ok : Bool) : Store :=
  if link_ok then
    update_user_subscription s uid true (some (addDays now 30)) true Option.none
  else s

/-- The user-facing outcome of `cancel_auto_renewal`. -/
inductive CancelMsg where
  | disabled
  | notActive
deriving Repr, DecidableEq

/-- Result of `cancel_auto_renewal`: the new store, whether the
provider-side `cancel_subscription` was invoked, and the message shown. -/
structure CancelOutcome where
  store : Store
  providerCalled : Bool
  message : CancelMsg
deriving Repr, DecidableEq

/-- `cancel_auto_renewal` (bot.py lines 308-349): when the user exists
with `auto_renewal` set, the code would call the provider's
`cancel_subscription` if `user.get('subscription_id')` were set — but
that read is always `None` (no such column), so the no-provider-id
branch (lines 329-336) always runs: write back the record with the same
`subscription_active` and `subscription_end_date` and
`auto_renewal=False`. -/
def cancel_auto_renewal (s : Store) (uid : Int) : CancelOutcome :=
  match get_user s uid with
  | some v =>
      if v.auto_renewal then
        match subscriptionIdOf v with
        | Option.none =>
            { store := update_user_subscription s uid v.subscription_active
                v.subscription_end_date false Option.none
              providerCalled := false
              message := CancelMsg.disabled }
        | some _ =>
            -- the provider-call branch of bot.py lines 316-328; unreachable,
            -- since `subscriptionIdOf` is `None` for every view, and left
            -- unmodelled beyond recording that the provider would be called
            { store := s, providerCalled := true, message := CancelMsg.disabled }
      else
        { store := s, providerCalled := false, message := CancelMsg.notActive }
  | Option.none =>
      { store := s, providerCalled := false, message := CancelMsg.notActive }

/-! ## YooKassa subscription manager (yookassa_subscriptions.py) -/

/-- Notification intents the renewal machinery sends. -/
inductive NotifyKind where
  | autoRenewalDisabled
  | autoRenewalFailed (attempt : Nat)
deriving Repr, DecidableEq

/-- `YooKassaSubscriptionManager._update_billing_attempt`
(yookassa_subscriptions.py lines 474-486): re-read the user, bump
`billing_attempts` inside the decoded `user_data` dict and try to
persist it.  The persist raises on the missing `user_data` column and
the function's own `except` swallows it (line 485), so the counter
never advances and the store is returned unchanged. -/
def update_billing_attempt (s : Store) (uid : Int) : Store :=
  match get_user s uid with
  | some v =>
      match add_or_update_user_data s uid
          { userDataOf v with
            billing_attempts := (userDataOf v).billing_attempts + 1 } with
      | Except.ok s2 => s2
      | Except.error _ => s
  | Option.none => s

/-- `YooKassaSubscriptionManager._handle_failed_renewal`
(yookassa_subscriptions.py lines 550-591): bump the billing counter,
re-read it, and when it has reached 3 clear `auto_renewal` and
`payment_method_id` and notify that auto-renewal was disabled;
otherwise notify of attempt N of 3.  Since the counter can never be
persisted it always re-reads as 0, so only the attempt-N branch is
reachable; were the clearing write reached, its own raise would be
caught by the function's outer `except` before the notification is
sent. -/
def handle_failed_renewal (s : Store) (uid : Int) : Store × List NotifyKind :=
  let s1 := update_billing_attempt s uid
  match get_user s1 uid with
  | some v =>
      let billing_attempts := (userDataOf v).billing_attempts
      if 3 ≤ billing_attempts then
        match add_or_update_user_data s1 uid
            { userDataOf v with
              auto_renewal := false, payment_method_id := Option.none } with
        | Except.ok s2 => (s2, [NotifyKind.autoRenewalDisabled])
        | Except.error _ => (s1, [])
      else
        (s1, [NotifyKind.autoRenewalFailed billing_attempts])
  | Option.none => (s1, [])

/-- `YooKassaSubscriptionManager.cancel_subscription`
(yookassa_subscriptions.py lines 593-636): the first write commits the
deactivation — `is_active=False`, `end_date=None`, `auto_renewal=False`,
a cancellation entry appended — then the attempt to clear
`payment_method_id`/`auto_renewal`/`current_tariff` in `user_data`
(line 622) raises on the missing column; the function's `except`
catches it and returns `{'success': False}`.  No provider-side call is
made.  The boolean is the returned success flag. -/
def yoo_cancel_subscription (now : Timestamp) (s : Store) (uid : Int)
    (reason : String) : Store × Bool :=
  let s1 := update_user_subscription s uid false Option.none false
      (some (HistEntry.cancellation reason now))
  match get_user s1 uid with
  | some v =>
      match add_or_update_user_data s1 uid
          { userDataOf v with
            payment_method_id := Option.none
            auto_renewal := false
            current_tariff := Option.none } with
      | Except.ok s2 => (s2, true)
      | Except.error _ => (s1, false)
  | Option.none => (s1, true)

/-! ## Prodamus webhook verification (prodamus_api.py, webhook_handler.py) -/

/-- The JSON object carried by a decodable Prodamus webhook body:
optional `order_id` and `status` fields plus the remaining payload
content (which also feeds the HMAC signature). -/
structure WebhookData where
  order_id : Option String
  status : Option String
  rest : String
deriving Repr, DecidableEq

/-- A raw webhook body: either bytes on which `json.loads` raises, or a
decoded JSON object. -/
inductive WebhookBody where
  | malformed
  | json (d : WebhookData)
deriving Repr, DecidableEq

/-- Python `str.startswith`, as a computation over the character
lists. -/
def strStartsWith (s p : String) : Bool :=
  p.data.isPrefixOf s.data

/-- `ProdamusAPI.verify_webhook` (prodamus_api.py lines 232-272).
`sign` stands for `self._sign` (the HMAC-SHA256 of the sorted-key JSON
serialization under the API key).  The source checks the signature only
inside `if webhook_signature:` — an absent/empty signature header skips
the check entirely. -/
def verify_webhook (sign : WebhookData → String) : WebhookBody → String → Bool
  | WebhookBody.malformed, _ => false
  | WebhookBody.json d, webhook_signature =>
      if d.order_id.isNone || d.status.isNone then false
      else if !strStartsWith (d.order_id.getD "") "tg_" then false
      else if webhook_signature ≠ "" then
        if sign d ≠ webhook_signature then false else true
      else true

/-- `prodamus_webhook` (webhook_handler.py lines 79-132): verify first
and answer 403 on failure; on success `process_webhook_data` records the
payment status in the module-level `payment_statuses` dict and never
touches the `users` store, so the store passes through unchanged with a
200 response. -/
def prodamus_webhook (sign : WebhookData → String) (body : WebhookBody)
    (signature : String) (s : Store) : Nat × Store :=
  if verify_webhook sign body signature then (200, s) else (403, s)

/-! ## YooKassa webhook handler (yookassa_webhook.py) -/

/-- The `object` field of a YooKassa `payment.succeeded` event, reduced
to the fields the handler reads: `metadata.user_id`, `metadata.tariff`,
the user id the regex fallback would extract from `description`, the
payment-method id, the amount, and the payment (charge) id. -/
structure YooPaymentObject where
  metadata_user_id : Option Int
  metadata_tariff : Option String
  description_user_id : Option Int
  payment_method_id : Option String
  amount_value : Int
  amount_currency : String
  payment_id : Option String
deriving Repr, DecidableEq

/-- A raw YooKassa webhook body: undecodable bytes, or a JSON object
with an `event` string and an optional payment `object`. -/
inductive YooBody where
  | malformed
  | json (event : String) (object : Option YooPaymentObject)
deriving Repr, DecidableEq

/-- `handle_yookassa_webhook` (yookassa_webhook.py lines 62-252).
`trusted_ip` is the result of the source's IP-allowlist test; the
source only logs when it is false («Проверка IP отключена для
отладки!») and continues processing regardless, so the parameter does
not influence the outcome.  The handler resolves a tariff and packs it
into `invoice_payload = f"subscription_{tariff}_{user_id}_{ts}"`, but
that string is not valid JSON, so `parse_payload` inside
`process_successful_payment` returns `{}` and the tariff used
downstream is the `'basic'` default.  `api_payment_method` stands for
the payment-method id `get_payment_method_from_yookassa` returns for
the charge. -/
def handle_yookassa_webhook (now : Timestamp) (s : Store) (trusted_ip : Bool)
    (body : YooBody) (api_payment_method : Option String) : Nat × Store :=
  let _ := trusted_ip
  match body with
  | YooBody.malformed => (400, s)
  | YooBody.json event object =>
      if event ≠ "payment.succeeded" then (200, s)
      else
        match object with
        | Option.none => (400, s)
        | some po =>
            match po.metadata_user_id <|> po.description_user_id with
            | Option.none => (400, s)
            | some uid =>
                let pd : PaymentDataIn :=
                  { total_amount := po.amount_value
                    currency := po.amount_currency
                    provider_payment_charge_id := po.payment_id
                    telegram_payment_charge_id := Option.none }
                -- process_successful_payment catches the exception
                -- _update_user_subscription re-raises after its first
                -- write committed, logs, and the handler still answers
                -- 200 (yookassa_webhook.py line 243)
                (200, (telegram_update_user_subscription now s uid "basic" pd
                  api_payment_method).1)

/-! ## Derived views and basic store lemmas -/

/-- The raw `payment_history` column of a user's row. -/
def rawHist (s : Store) (uid : Int) : Option HistCol :=
  (lookupRec s uid).map (fun r => r.payment_history)

/-- The `payment_history` value `get_user` reports for a user. -/
def viewHist (s : Store) (uid : Int) : Option HistVal :=
  (get_user s uid).map (fun v => v.payment_history)

theorem lookupRec_storeUpdate_self (s : Store) (uid : Int) (f : UserRecord → UserRecord) :
    lookupRec (storeUpdate s uid f) uid = (lookupRec s uid).map f := by
  induction s with
  | nil => rfl
  | cons p rest ih =>
      by_cases h : p.1 = uid
      · simp [storeUpdate, lookupRec, h]
      · simpa [storeUpdate, lookupRec, h] using ih

theorem lookupRec_storeUpdate_ne (s : Store) (uid uid2 : Int)
    (f : UserRecord → UserRecord) (h : uid2 ≠ uid) :
    lookupRec (storeUpdate s uid f) uid2 = lookupRec s uid2 := by
  induction s with
  | nil => rfl
  | cons p rest ih =>
      by_cases hp : p.1 = uid
      · simp only [storeUpdate, List.map_cons, if_pos hp, lookupRec]
        have hq : ¬ p.1 = uid2 := fun hc => h (hc ▸ hp)
        rw [if_neg hq, if_neg hq]
        exact ih
      · simp only [storeUpdate, List.map_cons, if_neg hp, lookupRec]
        by_cases hq : p.1 = uid2
        · rw [if_pos hq, if_pos hq]
        · rw [if_neg hq, if_neg hq]
          exact ih

theorem lookupRec_storeInsert_self (s : Store) (uid : Int) (r : UserRecord)
    (h : lookupRec s uid = Option.none) :
    lookupRec (storeInsert s uid r) uid = some r := by
  induction s with
  | nil => simp [storeInsert, lookupRec]
  | cons p rest ih =>
      by_cases hp : p.1 = uid
      · simp [lookupRec, hp] at h
      · simp [lookupRec, hp] at h
        simpa [storeInsert, lookupRec, hp] using ih h

theorem get_user_eq_some (s : Store) (uid : Int) (r : UserRecord)
    (h : lookupRec s uid = some r) : get_user s uid = some (viewOf r) := by
  simp [get_user, h]

theorem lookupRec_update_user_subscription_of_some (s : Store) (uid : Int)
    (a : Bool) (e : Option Timestamp) (ar : Bool) (p : Option HistEntry)
    (r : UserRecord) (h : lookupRec s uid = some r) :
    lookupRec (update_user_subscription s uid a e ar p) uid =
      some { r with
             subscription_active := a
             subscription_end_date := e
             auto_renewal := ar
             payment_history :=
               HistCol.valid (histToList (histView r.payment_history) ++ p.toList) } := by
  simp only [update_user_subscription, get_user, h, Option.map_some']
  rw [lookupRec_storeUpdate_self, h]
  rfl

theorem lookupRec_update_user_subscription_of_none (s : Store) (uid : Int)
    (a : Bool) (e : Option Timestamp) (ar : Bool) (p : Option HistEntry)
    (h : lookupRec s uid = Option.none) :
    lookupRec (update_user_subscription s uid a e ar p) uid =
      some { subscription_active := a
             subscription_end_date := e
             auto_renewal := ar
             payment_history := HistCol.valid p.toList } := by
  simp only [update_user_subscription, get_user, h, Option.map_none']
  exact lookupRec_storeInsert_self s uid _ h

theorem lookupRec_telegram_update_of_some (now : Timestamp) (s : Store) (uid : Int)
    (tariff : String) (pd : PaymentDataIn) (pm : Option String)
    (r : UserRecord) (h : lookupRec s uid = some r) :
    lookupRec (telegram_update_user_subscription now s uid tariff pd pm).1 uid =
      some { subscription_active := true
             subscription_end_date := some (addDays now 30)
             auto_renewal := pm.isSome
             left_group := r.left_group
             payment_history :=
               HistCol.valid (histToList (histView r.payment_history) ++
                 [HistEntry.payment (mkPaymentInfo now tariff pd)]) } := by
  have h1 := lookupRec_update_user_subscription_of_some s uid true
    (some (addDays now 30)) pm.isSome
    (some (HistEntry.payment (mkPaymentInfo now tariff pd))) r h
  exact h1

theorem lookupRec_telegram_update_of_none (now : Timestamp) (s : Store) (uid : Int)
    (tariff : String) (pd : PaymentDataIn) (pm : Option String)
    (h : lookupRec s uid = Option.none) :
    lookupRec (telegram_update_user_subscription now s uid tariff pd pm).1 uid =
      some { subscription_active := true
             subscription_end_date := some (addDays now 30)
             auto_renewal := pm.isSome
             left_group := false
             payment_history :=
               HistCol.valid [HistEntry.payment (mkPaymentInfo now tariff pd)] } := by
  have h1 := lookupRec_update_user_subscription_of_none s uid true
    (some (addDays now 30)) pm.isSome
    (some (HistEntry.payment (mkPaymentInfo now tariff pd))) h
  exact h1

theorem telegram_update_raises (now : Timestamp) (s : Store) (uid : Int)
    (tariff : String) (pd : PaymentDataIn) (pm : Option String) :
    (telegram_update_user_subscription now s uid tariff pd pm).2 = true := rfl

theorem update_billing_attempt_eq (s : Store) (uid : Int) :
    update_billing_attempt s uid = s := by
  unfold update_billing_attempt
  cases get_user s uid <;> rfl

theorem handle_failed_renewal_eq (s : Store) (uid : Int) :
    handle_failed_renewal s uid =
      (s, if (get_user s uid).isSome then [NotifyKind.autoRenewalFailed 0]
          else []) := by
  unfold handle_failed_renewal
  rw [update_billing_attempt_eq]
  cases hg : get_user s uid with
  | none => simp [hg]
  | some v => simp [hg, userDataOf, add_or_update_user_data]

/-! ## Claim theorems -/

/-- C8: `get_users_for_reminder` returns exactly the rows of active
subscribers with a non-null `subscription_end_date` whose calendar day
equals `today + offset` for some offset in the given set, comparing by
calendar date only (the time-of-day component `sec` is unconstrained). -/
theorem claim8_reminder_by_calendar_date (s : Store) (today : Int)
    (days : List Int) (uid : Int) (e : Option Timestamp) (lg : Bool) :
    (uid, e, lg) ∈ get_users_for_reminder s today days ↔
      ∃ r : UserRecord, (uid, r) ∈ s ∧ r.subscription_active = true ∧
        r.subscription_end_date = e ∧ r.left_group = lg ∧
        ∃ ts, e = some ts ∧ ∃ d ∈ days, ts.day = today + d := by
  unfold get_users_for_reminder
  by_cases hd : days.isEmpty
  · have hnil : days = [] := List.isEmpty_iff.mp hd
    subst hnil
    simp
  · rw [if_neg hd]
    constructor
    · intro hmem
      rcases List.mem_map.mp hmem with ⟨p, hp, hproj⟩
      rcases List.mem_filter.mp hp with ⟨hps, hpred⟩
      have h1 : p.1 = uid := congrArg (fun q => q.1) hproj
      have h2 : p.2.subscription_end_date = e :=
        congrArg (fun q => q.2.1) hproj
      have h3 : p.2.left_group = lg := congrArg (fun q => q.2.2) hproj
      rcases Bool.and_eq_true_iff.mp hpred with ⟨hact, hdate⟩
      refine ⟨p.2, ?_, hact, h2, h3, ?_⟩
      · have hpe : (uid, p.2) = p := by rw [← h1]
        exact hpe.symm ▸ hps
      · cases hE : p.2.subscription_end_date with
        | none => rw [hE] at hdate; exact absurd hdate (by simp)
        | some ts =>
            rw [hE] at hdate
            rcases List.any_eq_true.mp hdate with ⟨d, hdmem, hbeq⟩
            exact ⟨ts, by rw [← h2, hE], d, hdmem, eq_of_beq hbeq⟩
    · rintro ⟨r, hrs, hact, hend, hlg, ts, hts, d, hdmem, hday⟩
      refine List.mem_map.mpr ⟨(uid, r), List.mem_filter.mpr ⟨hrs, ?_⟩, by
        simp [hend, hlg]⟩
      refine Bool.and_eq_true_iff.mpr ⟨hact, ?_⟩
      rw [hend, hts]
      exact List.any_eq_true.mpr ⟨d, hdmem, by simp [hday]⟩

/-- C7: the SQL of `get_expired_users_to_kick` does select exactly the
kick candidates (inactive, still in the group, lapsed beyond the grace
window), but the function then indexes the fetched tuple rows with the
string key `'user_id'`, which raises `TypeError`; the blanket `except`
turns that into an empty result.  On the claim's own example (active
= false, left_group = false, end_date = now − 3 days, grace 2 days, with
a left_group = true twin that the SQL rightly excludes) the function
returns `[]` instead of the selected user. -/
theorem claim7_kick_query_returns_empty :
    kickSelectedRows
        [(7, { subscription_active := false, left_group := false,
               subscription_end_date := some ⟨97, 0⟩ }),
         (8, { subscription_active := false, left_group := true,
               subscription_end_date := some ⟨97, 0⟩ })]
        ⟨100, 0⟩ 2 = [[7]] ∧
    get_expired_users_to_kick
        [(7, { subscription_active := false, left_group := false,
               subscription_end_date := some ⟨97, 0⟩ }),
         (8, { subscription_active := false, left_group := true,
               subscription_end_date := some ⟨97, 0⟩ })]
        ⟨100, 0⟩ 2 = [] := by
  exact ⟨rfl, rfl⟩

/-- C3 counterexample: a well-formed payload delivered with an empty
(missing) signature header is accepted by `verify_webhook`, although the
claim requires rejection whenever the signature is missing.  The
webhook handler passes `request.headers.get('X-Signature', '')`, so an
absent header arrives here as `""`. -/
theorem claim3_counterexample_missing_signature_accepted :
    verify_webhook (fun _ => "hmac-of-payload")
      (WebhookBody.json
        { order_id := some "tg_1_100_5", status := some "paid", rest := "" })
      "" = true := by
  decide

/-- C3 amended: `verify_webhook` accepts exactly the decodable payloads
that carry an `order_id` starting with `tg_` and a `status` field and
whose signature header is either empty (the check is skipped) or equal
to the expected HMAC; malformed JSON, a missing `order_id`/`status`, a
foreign order-id format, and a non-empty mismatched signature are all
rejected. -/
theorem claim3_amended_verify_webhook (sign : WebhookData → String)
    (body : WebhookBody) (sig : String) :
    verify_webhook sign body sig = true ↔
      ∃ d oid, body = WebhookBody.json d ∧ d.order_id = some oid ∧
        strStartsWith oid "tg_" = true ∧ d.status.isSome = true ∧
        (sig = "" ∨ sig = sign d) := by
  cases body with
  | malformed => simp [verify_webhook]
  | json d =>
      cases hoid : d.order_id with
      | none => simp [verify_webhook, hoid]
      | some oid =>
          cases hst : d.status with
          | none => simp [verify_webhook, hoid, hst]
          | some st =>
              by_cases htg : strStartsWith oid "tg_" = true
              · by_cases hsig : sig = ""
                · simp [verify_webhook, hoid, hst, htg, hsig]
                · by_cases hm : sign d = sig
                  · have hL : verify_webhook sign (WebhookBody.json d) sig = true := by
                      simp [verify_webhook, hoid, hst, htg, hsig, hm]
                    rw [hL]
                    simp only [true_iff]
                    exact ⟨d, oid, rfl, hoid, htg, by simp [hst], Or.inr hm.symm⟩
                  · simp [verify_webhook, hoid, hst, htg, hsig, hm]
                    intro hc
                    exact absurd hc.symm hm
              · simp [verify_webhook, hoid, hst, htg]

/-- C4: the Prodamus handler does reject a request failing verification
with 403 and an untouched store, but the YooKassa handler performs no
authenticity check at all: its IP-allowlist test is disabled («Проверка
IP отключена для отладки!»), so a `payment.succeeded` event from an
untrusted address is handed to the state machine and creates/updates
the user record (here: user 42 springs into existence with an active
subscription) with a 200 response. -/
theorem claim4_unverified_webhook_divergence :
    prodamus_webhook (fun _ => "expected-hmac")
        (WebhookBody.json
          { order_id := some "tg_9_1_1", status := some "success", rest := "" })
        "forged" [(9, {})] = (403, [(9, {})]) ∧
    (handle_yookassa_webhook ⟨100, 0⟩ [] false
        (YooBody.json "payment.succeeded"
          (some { metadata_user_id := some 42, metadata_tariff := Option.none,
                  description_user_id := Option.none,
                  payment_method_id := Option.none, amount_value := 990,
                  amount_currency := "RUB", payment_id := some "pay_1" }))
        Option.none).1 = 200 ∧
    (get_user
        (handle_yookassa_webhook ⟨100, 0⟩ [] false
          (YooBody.json "payment.succeeded"
            (some { metadata_user_id := some 42, metadata_tariff := Option.none,
                    description_user_id := Option.none,
                    payment_method_id := Option.none, amount_value := 990,
                    amount_currency := "RUB", payment_id := some "pay_1" }))
          Option.none).2 42).map
        (fun v => (v.subscription_active, v.payment_history)) =
      some (true, HistVal.list [HistEntry.payment
        { amount := 990, currency := "RUB",
          provider_payment_charge_id := some "pay_1",
          telegram_payment_charge_id := Option.none, tariff := "basic",
          payment_date := ⟨100, 0⟩, status := "completed" }]) := by
  refine ⟨?_, rfl, rfl⟩
  decide

/-- C10 counterexample: a stored `payment_history` that is the empty
string — a string that is not valid JSON — is *not* replaced by the
empty list: `if user.get('payment_history'):` is false for `''`, so
`get_user` returns it undecoded. -/
theorem claim10_counterexample_empty_string_kept :
    viewHist [(3, { payment_history := HistCol.emptyStr })] 3 =
      some HistVal.emptyStr ∧
    HistVal.emptyStr ≠ HistVal.list [] := by
  decide

/-- C10 amended: `get_user` never raises on an undecodable
`payment_history` column.  For a non-empty string that fails JSON
decoding the returned record carries `[]`; for the empty string the
falsy-guard skips decoding and the string itself is returned.  In both
cases a subsequent `update_user_subscription` coerces the value to `[]`
and persists a history containing only the newly appended entry,
silently discarding the corrupt blob. -/
theorem claim10_amended_corrupt_history (s : Store) (uid : Int)
    (r : UserRecord) (h : lookupRec s uid = some r) :
    (r.payment_history = HistCol.corrupt →
      get_user s uid = some (viewOf r) ∧
      (viewOf r).payment_history = HistVal.list [] ∧
      ∀ a e ar p, rawHist (update_user_subscription s uid a e ar p) uid =
        some (HistCol.valid p.toList)) ∧
    (r.payment_history = HistCol.emptyStr →
      get_user s uid = some (viewOf r) ∧
      (viewOf r).payment_history = HistVal.emptyStr ∧
      ∀ a e ar p, rawHist (update_user_subscription s uid a e ar p) uid =
        some (HistCol.valid p.toList)) := by
  constructor
  · intro hc
    refine ⟨get_user_eq_some s uid r h, by simp [viewOf, hc, histView], ?_⟩
    intro a e ar p
    rw [rawHist, lookupRec_update_user_subscription_of_some s uid a e ar p r h]
    simp [hc, histView, histToList]
  · intro hc
    refine ⟨get_user_eq_some s uid r h, by simp [viewOf, hc, histView], ?_⟩
    intro a e ar p
    rw [rawHist, lookupRec_update_user_subscription_of_some s uid a e ar p r h]
    simp [hc, histView, histToList]

/-- C10 witness: the amended theorem applied to one-user stores whose
history column is the corrupt string and the empty string. -/
theorem claim10_amended_witness :
    (∀ a e ar p,
      rawHist (update_user_subscription
        [(3, { payment_history := HistCol.corrupt })] 3 a e ar p) 3 =
        some (HistCol.valid p.toList)) ∧
    viewHist [(3, { payment_history := HistCol.corrupt })] 3 =
      some (HistVal.list []) := by
  have hmain := claim10_amended_corrupt_history
    [(3, { payment_history := HistCol.corrupt })] 3
    { payment_history := HistCol.corrupt } rfl
  rcases hmain.1 rfl with ⟨hget, hview, hupd⟩
  exact ⟨hupd, by rw [viewHist, hget, Option.map_some', hview]⟩

/-- C2 counterexample: both transitions that leave `auto_renewal = true`
do so without any stored payment-method reference.  Demo-mode
`process_subscription` commits `auto_renewal = True` and stores no
method; the Telegram-payments activation with a captured
`payment_method_id = "pm1"` commits `auto_renewal = true` and then
raises trying to store the id (no `user_data` column), so the stored
reference reads back as `None` in both post-states. -/
theorem claim2_counterexample_demo_auto_renewal :
    (get_user (process_subscription_demo ⟨100, 0⟩ [(1, {})] 1 true) 1).map
        (fun v => (v.auto_renewal, (userDataOf v).payment_method_id)) =
      some (true, Option.none) ∧
    (telegram_update_user_subscription ⟨100, 0⟩
        [(1, { payment_history := HistCol.valid [] })] 1 "basic"
        { total_amount := 500, currency := "RUB",
          provider_payment_charge_id := some "ch1",
          telegram_payment_charge_id := Option.none } (some "pm1")).2 = true ∧
    (get_user (telegram_update_user_subscription ⟨100, 0⟩
        [(1, { payment_history := HistCol.valid [] })] 1 "basic"
        { total_amount := 500, currency := "RUB",
          provider_payment_charge_id := some "ch1",
          telegram_payment_charge_id := Option.none } (some "pm1")).1 1).map
        (fun v => (v.auto_renewal, (userDataOf v).payment_method_id)) =
      some (true, Option.none) := by
  refine ⟨by decide, rfl, by decide⟩

/-- C2 amended: the program cannot store a payment-method reference at
all — the write targeting the nonexistent `user_data` column raises and
`_update_user_subscription` re-raises — while `auto_renewal = true` is
already committed: the activation sets `auto_renewal =
bool(payment_method_id)` in the real column and the stored reference
always reads back as `None`; demo-mode subscribe likewise sets
`auto_renewal = true` with nothing recorded.  So every transition that
ends with `auto_renewal = true` ends with `payment_method_ref = null`,
and the claimed invariant fails wherever `auto_renewal` is set. -/
theorem claim2_amended_activation_invariant (now : Timestamp) (s : Store)
    (uid : Int) (tariff : String) (pd : PaymentDataIn) (pm : Option String) :
    (telegram_update_user_subscription now s uid tariff pd pm).2 = true ∧
    (∃ v, get_user (telegram_update_user_subscription now s uid tariff pd pm).1
        uid = some v ∧
      v.auto_renewal = pm.isSome ∧
      (userDataOf v).payment_method_id = Option.none) ∧
    (∃ v, get_user (process_subscription_demo now s uid true) uid = some v ∧
      v.auto_renewal = true ∧
      (userDataOf v).payment_method_id = Option.none) := by
  refine ⟨rfl, ?_, ?_⟩
  · cases hr : lookupRec s uid with
    | some r =>
        exact ⟨_, get_user_eq_some _ _ _
          (lookupRec_telegram_update_of_some now s uid tariff pd pm r hr),
          rfl, rfl⟩
    | none =>
        exact ⟨_, get_user_eq_some _ _ _
          (lookupRec_telegram_update_of_none now s uid tariff pd pm hr),
          rfl, rfl⟩
  · unfold process_subscription_demo
    rw [if_pos rfl]
    cases hr : lookupRec s uid with
    | some r =>
        exact ⟨_, get_user_eq_some _ _ _
          (lookupRec_update_user_subscription_of_some s uid true
            (some (addDays now 30)) true Option.none r hr), rfl, rfl⟩
    | none =>
        exact ⟨_, get_user_eq_some _ _ _
          (lookupRec_update_user_subscription_of_none s uid true
            (some (addDays now 30)) true Option.none hr), rfl, rfl⟩

theorem viewHist_eq (s : Store) (uid : Int) :
    viewHist s uid =
      (lookupRec s uid).map (fun r => histView r.payment_history) := by
  unfold viewHist get_user
  cases lookupRec s uid <;> rfl

/-- C5 amended: `payment_history` is append-only through
`update_user_subscription` whenever the stored history decodes to a
list — the write-back is the decoded history plus exactly the one entry
passed as `payment_info` (or nothing when none is passed) — but a
failed auto-renewal attempt appends no history entry and persists
nothing at all: `_handle_failed_renewal`'s only write targets the
nonexistent `user_data` column, raises, and is swallowed, so the store
(history included) is completely unchanged. -/
theorem claim5_amended_append_only :
    (∀ (s : Store) (uid : Int) (a : Bool) (e : Option Timestamp) (ar : Bool)
        (p : Option HistEntry) (l : List HistEntry),
      viewHist s uid = some (HistVal.list l) →
      viewHist (update_user_subscription s uid a e ar p) uid =
        some (HistVal.list (l ++ p.toList))) ∧
    (∀ (s : Store) (uid : Int), (handle_failed_renewal s uid).1 = s) := by
  constructor
  · intro s uid a e ar p l h
    rw [viewHist_eq] at h
    cases hr : lookupRec s uid with
    | none => rw [hr] at h; cases h
    | some r =>
        rw [hr] at h
        have hhv : histView r.payment_history = HistVal.list l := by
          simpa using h
        rw [viewHist_eq,
          lookupRec_update_user_subscription_of_some s uid a e ar p r hr]
        show some (histView (HistCol.valid
          (histToList (histView r.payment_history) ++ p.toList))) = _
        rw [hhv]
        rfl
  · intro s uid
    rw [handle_failed_renewal_eq]

/-- C5 witness: the amended theorem at a concrete store — a successful
payment appends exactly its one entry, and a failed renewal pass leaves
the whole store (history included) as it was. -/
theorem claim5_amended_witness :
    viewHist (update_user_subscription
        [(4, { payment_history := HistCol.valid [] })] 4 true Option.none false
        (some (HistEntry.renewal "p1" ⟨0, 0⟩))) 4 =
      some (HistVal.list [HistEntry.renewal "p1" ⟨0, 0⟩]) ∧
    (handle_failed_renewal
        [(4, { payment_history := HistCol.valid [] })] 4).1 =
      [(4, { payment_history := HistCol.valid [] })] := by
  constructor
  · have := claim5_amended_append_only.1
      [(4, { payment_history := HistCol.valid [] })] 4 true Option.none false
      (some (HistEntry.renewal "p1" ⟨0, 0⟩)) [] (by decide)
    simpa using this
  · exact claim5_amended_append_only.2
      [(4, { payment_history := HistCol.valid [] })] 4

/-- C5 counterexample: a failed auto-renewal charge handled by
`_handle_failed_renewal` appends nothing to `payment_history` — the
column is bit-for-bit what it was — although the claim requires every
failed payment attempt to append exactly one entry. -/
theorem claim5_counterexample_failed_renewal_appends_nothing :
    rawHist (handle_failed_renewal
        [(4, { subscription_active := true, auto_renewal := true,
               payment_history := HistCol.valid [] })] 4).1 4 =
      some (HistCol.valid []) ∧
    rawHist [(4, { subscription_active := true, auto_renewal := true,
                   payment_history := HistCol.valid [] })] 4 =
      some (HistCol.valid []) := by
  decide

/-- C6: the claimed transition is impossible in the program.  The
`users` table has no `user_data` column, so `_update_billing_attempt`'s
persist raises and is swallowed: the billing counter always re-reads as
0, `_handle_failed_renewal` never reaches its `>= 3` branch, never
clears `auto_renewal`/`payment_method_id`, and never sends the
disabled notice — every failed renewal leaves the store unchanged and
tells the user "Attempt 0 of 3", including the third consecutive
failure on the concrete user below. -/
theorem claim6_billing_counter_never_advances :
    (∀ (s : Store) (uid : Int),
      update_billing_attempt s uid = s ∧
      (handle_failed_renewal s uid).1 = s ∧
      NotifyKind.autoRenewalDisabled ∉ (handle_failed_renewal s uid).2) ∧
    handle_failed_renewal
        [(5, { subscription_active := true, auto_renewal := true })] 5 =
      ([(5, { subscription_active := true, auto_renewal := true })],
       [NotifyKind.autoRenewalFailed 0]) ∧
    handle_failed_renewal (handle_failed_renewal (handle_failed_renewal
        [(5, { subscription_active := true, auto_renewal := true })] 5).1
        5).1 5 =
      ([(5, { subscription_active := true, auto_renewal := true })],
       [NotifyKind.autoRenewalFailed 0]) := by
  refine ⟨fun s uid => ⟨update_billing_attempt_eq s uid, ?_, ?_⟩,
    by decide, by decide⟩
  · rw [handle_failed_renewal_eq]
  · rw [handle_failed_renewal_eq]
    cases (get_user s uid).isSome <;> simp

/-- C1 counterexample: delivering the same `PaymentConfirmed` event
(provider charge id `ch1`) twice through `_update_user_subscription`
appends two history entries, although only one distinct provider charge
id was seen, and the second delivery also moves
`subscription_end_date` to 30 days after its own processing time. -/
theorem claim1_counterexample_duplicate_charge_id :
    (viewHist (deliverAll [(1, { payment_history := HistCol.valid [] })] 1
        [{ now := ⟨0, 0⟩, tariff := "basic",
           data := { total_amount := 500, currency := "RUB",
                     provider_payment_charge_id := some "ch1",
                     telegram_payment_charge_id := Option.none },
           payment_method_id := Option.none },
         { now := ⟨1, 0⟩, tariff := "basic",
           data := { total_amount := 500, currency := "RUB",
                     provider_payment_charge_id := some "ch1",
                     telegram_payment_charge_id := Option.none },
           payment_method_id := Option.none }]) 1).map
        (fun hv => (histToList hv).length) = some 2 ∧
    ((([{ now := (⟨0, 0⟩ : Timestamp), tariff := "basic",
          data := { total_amount := 500, currency := "RUB",
                    provider_payment_charge_id := some "ch1",
                    telegram_payment_charge_id := Option.none },
          payment_method_id := Option.none },
        { now := ⟨1, 0⟩, tariff := "basic",
          data := { total_amount := 500, currency := "RUB",
                    provider_payment_charge_id := some "ch1",
                    telegram_payment_charge_id := Option.none },
          payment_method_id := Option.none }] : List ConfirmedDelivery).map
        (fun d => d.data.provider_payment_charge_id)).dedup).length = 1 ∧
    (2 : Nat) ≠ 1 ∧
    (get_user (deliverAll [(1, { payment_history := HistCol.valid [] })] 1
        [{ now := ⟨0, 0⟩, tariff := "basic",
           data := { total_amount := 500, currency := "RUB",
                     provider_payment_charge_id := some "ch1",
                     telegram_payment_charge_id := Option.none },
           payment_method_id := Option.none },
         { now := ⟨1, 0⟩, tariff := "basic",
           data := { total_amount := 500, currency := "RUB",
                     provider_payment_charge_id := some "ch1",
                     telegram_payment_charge_id := Option.none },
           payment_method_id := Option.none }]) 1).map
        (fun v => v.subscription_end_date) = some (some ⟨31, 0⟩) ∧
    (get_user (deliverAll [(1, { payment_history := HistCol.valid [] })] 1
        [{ now := ⟨0, 0⟩, tariff := "basic",
           data := { total_amount := 500, currency := "RUB",
                     provider_payment_charge_id := some "ch1",
                     telegram_payment_charge_id := Option.none },
           payment_method_id := Option.none }]) 1).map
        (fun v => v.subscription_end_date) = some (some ⟨30, 0⟩) ∧
    (⟨31, 0⟩ : Timestamp) ≠ ⟨30, 0⟩ := by
  refine ⟨by decide, by decide, by decide, by decide, by decide, by decide⟩

/-- C1 amended: `_update_user_subscription` performs no deduplication by
provider charge id: after any sequence of `PaymentConfirmed` deliveries,
`payment_history` equals the prior history followed by one appended
entry *per delivery* (so its length is the total number of deliveries,
not the number of distinct charge ids), and `subscription_end_date` is
30 days after the processing time of the *last* delivery (a re-delivery
re-extends it). -/
theorem claim1_amended_no_dedupe (uid : Int) (ds : List ConfirmedDelivery) :
    ∀ (s : Store) (l : List HistEntry),
      viewHist s uid = some (HistVal.list l) →
      viewHist (deliverAll s uid ds) uid =
        some (HistVal.list (l ++ ds.map (fun d =>
          HistEntry.payment (mkPaymentInfo d.now d.tariff d.data)))) ∧
      ∀ d, ds.getLast? = some d →
        (get_user (deliverAll s uid ds) uid).map
            (fun v => v.subscription_end_date) =
          some (some (addDays d.now 30)) := by
  induction ds with
  | nil =>
      intro s l h
      constructor
      · simpa [deliverAll] using h
      · intro d hd
        cases hd
  | cons d rest ih =>
      intro s l h
      rw [viewHist_eq] at h
      cases hr : lookupRec s uid with
      | none => rw [hr] at h; cases h
      | some r =>
          rw [hr] at h
          have hhv : histView r.payment_history = HistVal.list l := by
            simpa using h
          have hstep := lookupRec_telegram_update_of_some d.now s uid d.tariff
            d.data d.payment_method_id r hr
          have hs1hist : viewHist
              (telegram_update_user_subscription d.now s uid d.tariff d.data
                d.payment_method_id).1 uid =
              some (HistVal.list (l ++
                [HistEntry.payment (mkPaymentInfo d.now d.tariff d.data)])) := by
            rw [viewHist_eq, hstep]
            show some (histView (HistCol.valid
              (histToList (histView r.payment_history) ++ _))) = _
            rw [hhv]
            rfl
          have hdeliver : deliverAll s uid (d :: rest) =
              deliverAll (telegram_update_user_subscription d.now s uid d.tariff
                d.data d.payment_method_id).1 uid rest := rfl
          have ihres := ih _ _ hs1hist
          constructor
          · rw [hdeliver, ihres.1]
            simp
          · intro dl hdl
            cases rest with
            | nil =>
                have hd : d = dl := by simpa using hdl
                subst hd
                rw [hdeliver]
                simp only [deliverAll, List.foldl_nil]
                rw [get_user, hstep]
                rfl
            | cons d2 rest2 =>
                rw [List.getLast?_cons_cons] at hdl
                rw [hdeliver]
                exact ihres.2 dl hdl

/-- C1 witness: the amended theorem on the duplicate-delivery pair from
the counterexample — two deliveries of the same charge id append two
entries and leave the end date 30 days after the second delivery. -/
theorem claim1_amended_witness :
    viewHist (deliverAll [(1, { payment_history := HistCol.valid [] })] 1
        [{ now := ⟨0, 0⟩, tariff := "basic",
           data := { total_amount := 500, currency := "RUB",
                     provider_payment_charge_id := some "ch1",
                     telegram_payment_charge_id := Option.none },
           payment_method_id := Option.none },
         { now := ⟨1, 0⟩, tariff := "basic",
           data := { total_amount := 500, currency := "RUB",
                     provider_payment_charge_id := some "ch1",
                     telegram_payment_charge_id := Option.none },
           payment_method_id := Option.none }]) 1 =
      some (HistVal.list
        ([] ++ ([{ now := (⟨0, 0⟩ : Timestamp), tariff := "basic",
                   data := { total_amount := 500, currency := "RUB",
                             provider_payment_charge_id := some "ch1",
                             telegram_payment_charge_id := Option.none },
                   payment_method_id := Option.none },
                 { now := ⟨1, 0⟩, tariff := "basic",
                   data := { total_amount := 500, currency := "RUB",
                             provider_payment_charge_id := some "ch1",
                             telegram_payment_charge_id := Option.none },
                   payment_method_id := Option.none }] :
                 List ConfirmedDelivery).map
          (fun d => HistEntry.payment
            (mkPaymentInfo d.now d.tariff d.data)))) :=
  (claim1_amended_no_dedupe 1
      [{ now := ⟨0, 0⟩, tariff := "basic",
         data := { total_amount := 500, currency := "RUB",
                   provider_payment_charge_id := some "ch1",
                   telegram_payment_charge_id := Option.none },
         payment_method_id := Option.none },
       { now := ⟨1, 0⟩, tariff := "basic",
         data := { total_amount := 500, currency := "RUB",
                   provider_payment_charge_id := some "ch1",
                   telegram_payment_charge_id := Option.none },
         payment_method_id := Option.none }]
      [(1, { payment_history := HistCol.valid [] })] [] (by decide)).1

/-- C9 counterexample: running the cited
`YooKassaSubscriptionManager.cancel_subscription` on a user with
auto-renewal on does not leave the subscription active until its
existing end date: its first write commits `subscription_active=false`
and `subscription_end_date=null` immediately, and the operation then
reports failure (the `user_data`-clearing write raises on the missing
column). -/
theorem claim9_counterexample_deactivates_immediately :
    (get_user (yoo_cancel_subscription ⟨37, 0⟩
        [(2, { subscription_active := true,
               subscription_end_date := some ⟨200, 0⟩,
               auto_renewal := true,
               payment_history := HistCol.valid [] })] 2 "user request").1 2).map
        (fun v => (v.subscription_active, v.subscription_end_date)) =
      some (false, Option.none) ∧
    (yoo_cancel_subscription ⟨37, 0⟩
        [(2, { subscription_active := true,
               subscription_end_date := some ⟨200, 0⟩,
               auto_renewal := true,
               payment_history := HistCol.valid [] })] 2 "user request").2 =
      false ∧
    (false, (Option.none : Option Timestamp)) ≠ (true, some ⟨200, 0⟩) := by
  refine ⟨by decide, by decide, by decide⟩

/-- C9 amended: bot.py `cancel_auto_renewal` on a user with
`auto_renewal = true` sets `auto_renewal = false` and leaves
`subscription_active` and `subscription_end_date` unchanged; the
provider-side cancel is never invoked, because the
`user.get('subscription_id')` read is always `None` (no such column) —
and no payment-method reference exists to clear, since none is ever
stored.  `YooKassaSubscriptionManager.cancel_subscription`, by
contrast, commits an immediate deactivation
(`subscription_active = false`, `subscription_end_date = null`,
`auto_renewal = false`, a cancellation entry appended) and then returns
`success: False` when its `user_data`-clearing write raises; it makes
no provider-side call. -/
theorem claim9_amended_cancel_paths :
    (∀ (s : Store) (uid : Int) (r : UserRecord),
      lookupRec s uid = some r → r.auto_renewal = true →
      (cancel_auto_renewal s uid).providerCalled = false ∧
      (cancel_auto_renewal s uid).message = CancelMsg.disabled ∧
      ∃ r2, lookupRec (cancel_auto_renewal s uid).store uid = some r2 ∧
        r2.auto_renewal = false ∧
        r2.subscription_active = r.subscription_active ∧
        r2.subscription_end_date = r.subscription_end_date) ∧
    (∀ (now : Timestamp) (s : Store) (uid : Int) (reason : String)
        (r : UserRecord), lookupRec s uid = some r →
      (yoo_cancel_subscription now s uid reason).2 = false ∧
      ∃ r2, lookupRec (yoo_cancel_subscription now s uid reason).1 uid =
          some r2 ∧
        r2.subscription_active = false ∧
        r2.subscription_end_date = Option.none ∧
        r2.auto_renewal = false ∧
        r2.payment_history = HistCol.valid
          (histToList (histView r.payment_history) ++
            [HistEntry.cancellation reason now])) := by
  constructor
  · intro s uid r h hauto
    have hg : get_user s uid = some (viewOf r) := get_user_eq_some s uid r h
    have hva : (viewOf r).auto_renewal = true := hauto
    have hout : cancel_auto_renewal s uid =
        { store := update_user_subscription s uid
            (viewOf r).subscription_active (viewOf r).subscription_end_date
            false Option.none
          providerCalled := false
          message := CancelMsg.disabled } := by
      simp [cancel_auto_renewal, hg, hva, subscriptionIdOf]
    rw [hout]
    exact ⟨rfl, rfl, _,
      lookupRec_update_user_subscription_of_some s uid
        (viewOf r).subscription_active (viewOf r).subscription_end_date
        false Option.none r h, rfl, rfl, rfl⟩
  · intro now s uid reason r h
    have h1 := lookupRec_update_user_subscription_of_some s uid false
      Option.none false (some (HistEntry.cancellation reason now)) r h
    have hg1 := get_user_eq_some _ _ _ h1
    have hout : yoo_cancel_subscription now s uid reason =
        (update_user_subscription s uid false Option.none false
          (some (HistEntry.cancellation reason now)), false) := by
      simp [yoo_cancel_subscription, hg1, add_or_update_user_data]
    rw [hout]
    exact ⟨rfl, _, h1, rfl, rfl, rfl, rfl⟩

/-- C9 witness: the amended theorem's two halves applied to a concrete
one-user store with an active subscription and auto-renewal on. -/
theorem claim9_amended_witness :
    (∃ r2, lookupRec (cancel_auto_renewal
        [(2, { subscription_active := true,
               subscription_end_date := some ⟨200, 0⟩,
               auto_renewal := true })] 2).store 2 = some r2 ∧
      r2.auto_renewal = false ∧
      r2.subscription_active = true ∧
      r2.subscription_end_date = some ⟨200, 0⟩) ∧
    ((yoo_cancel_subscription ⟨37, 0⟩
        [(2, { subscription_active := true,
               subscription_end_date := some ⟨200, 0⟩,
               auto_renewal := true })] 2 "user request").2 = false ∧
     ∃ r2, lookupRec (yoo_cancel_subscription ⟨37, 0⟩
        [(2, { subscription_active := true,
               subscription_end_date := some ⟨200, 0⟩,
               auto_renewal := true })] 2 "user request").1 2 = some r2 ∧
       r2.subscription_active = false ∧
       r2.subscription_end_date = Option.none ∧
       r2.auto_renewal = false) := by
  constructor
  · have happ := claim9_amended_cancel_paths.1
      [(2, { subscription_active := true,
             subscription_end_date := some ⟨200, 0⟩,
             auto_renewal := true })] 2
      { subscription_active := true,
        subscription_end_date := some ⟨200, 0⟩,
        auto_renewal := true }
      (by decide) rfl
    obtain ⟨_, _, r2, hr2, h1, h2, h3⟩ := happ
    exact ⟨r2, hr2, h1, h2, h3⟩
  · have happ := claim9_amended_cancel_paths.2 ⟨37, 0⟩
      [(2, { subscription_active := true,
             subscription_end_date := some ⟨200, 0⟩,
             auto_renewal := true })] 2 "user request"
      { subscription_active := true,
        subscription_end_date := some ⟨200, 0⟩,
        auto_renewal := true }
      (by decide)
    obtain ⟨hflag, r2, hr2, ha, he, hau, _⟩ := happ
    exact ⟨hflag, r2, hr2, ha, he, hau⟩

end SubBot
